import Mathlib

/-!
Verification of the Account CRUD REST service (`service/routes.py`).

The routing layer (`routes.py`) is embedded directly from the source.
The `Account` model (`service/models.py`) is not part of the available
source tree — only its callers and tests are — so its operations are
modelled from the specification (§3, §4.1 of the spec), each marked
`Modelled from the spec:` in its doc comment.

State is a store of persisted accounts plus the identity counter the
store uses to assign fresh identities.  Each HTTP handler is a pure
function from (request data, store) to (new store, response).
-/

namespace AccountService

/-- An inbound JSON body for create/update, as a partial mapping from
attribute names to values.  A field that is absent from the JSON object
is `none`.  Dates travel as ISO strings on the wire (spec §6). -/
structure Body where
  name : Option String
  email : Option String
  address : Option String
  phone_number : Option String
  date_joined : Option String
deriving Repr, DecidableEq

/-- A persisted Account record: identity plus attributes
(spec §3: identity integer assigned by the store; name and email
required strings; address, phone_number optional; date_joined a date). -/
structure Account where
  id : Nat
  name : String
  email : String
  address : Option String
  phone_number : Option String
  date_joined : Option String
deriving Repr, DecidableEq

/-- The serialized wire form of an account:
`{id, name, email, address, phone_number, date_joined}` (spec §6). -/
structure Serialized where
  id : Nat
  name : String
  email : String
  address : Option String
  phone_number : Option String
  date_joined : Option String
deriving Repr, DecidableEq

/-- Modelled from the spec: `serialize()` of `service/models.py` (missing
from the source tree) "produces a mapping from attribute name to value
(strings/ints/date), used for response bodies" (§4.1). -/
def Account.serialize (a : Account) : Serialized :=
  { id := a.id
    name := a.name
    email := a.email
    address := a.address
    phone_number := a.phone_number
    date_joined := a.date_joined }

/-- The attribute part of an account, as produced by deserialization
(identity is assigned separately, by the store on creation). -/
structure AccountData where
  name : String
  email : String
  address : Option String
  phone_number : Option String
  date_joined : Option String
deriving Repr, DecidableEq

/-- Modelled from the spec: `deserialize(mapping)` of `service/models.py`
(missing from the source tree) "populates attributes from an inbound
mapping; fails (signals a validation error) if required keys are absent"
(§4.1); the required fields are name and email (§3). -/
def deserialize (b : Body) : Option AccountData :=
  match b.name, b.email with
  | some n, some e =>
      some { name := n, email := e, address := b.address
             phone_number := b.phone_number, date_joined := b.date_joined }
  | _, _ => none

/-- The store backing Account records: the list of persisted records
(in insertion order, spec §9) and the next identity the store will
assign (spec §3: identity assigned by the store on creation). -/
structure Store where
  accounts : List Account
  nextId : Nat
deriving Repr, DecidableEq

/-- The empty store. -/
def Store.empty : Store := { accounts := [], nextId := 1 }

/-- Modelled from the spec: `Account.find(id)` of `service/models.py`
(missing from the source tree) "returns the record matching identity, or
an absent-value marker if none exists" (§4.1). -/
def Store.find (s : Store) (id : Nat) : Option Account :=
  s.accounts.find? (fun a => a.id = id)

/-- Modelled from the spec: `Account.all()` of `service/models.py`
(missing from the source tree) "returns every persisted record,
order unspecified/insertion order" (§4.1). -/
def Store.all (s : Store) : List Account :=
  s.accounts

/-- Attach an identity to deserialized attribute data, giving a full
account record. -/
def AccountData.withId (d : AccountData) (idv : Nat) : Account :=
  { id := idv, name := d.name, email := d.email, address := d.address
    phone_number := d.phone_number, date_joined := d.date_joined }

/-- Modelled from the spec: `create()` of `service/models.py`
(missing from the source tree) "persists a new record; assigns identity"
(§4.1); the store owns identity assignment (§3). -/
def Store.create (s : Store) (d : AccountData) : Store × Account :=
  let a : Account := d.withId s.nextId
  ({ accounts := s.accounts ++ [a], nextId := s.nextId + 1 }, a)

/-- Modelled from the spec: `update()` of `service/models.py`
(missing from the source tree) "overwrites the persisted record's
attributes with the in-memory copy's current values" (§4.1). -/
def Store.update (s : Store) (a : Account) : Store :=
  { s with accounts := s.accounts.map (fun b => if b.id = a.id then a else b) }

/-- Modelled from the spec: `delete()` of `service/models.py`
(missing from the source tree) "removes the persisted record
permanently" (§4.1). -/
def Store.delete (s : Store) (id : Nat) : Store :=
  { s with accounts := s.accounts.filter (fun a => ¬ a.id = id) }

/-- The body of an HTTP response: a single serialized account, a list of
serialized accounts, a plain message (for errors), or empty. -/
inductive RespBody where
  | acct (a : Serialized)
  | accts (l : List Serialized)
  | msg (m : String)
  | empty
deriving Repr, DecidableEq

/-- An HTTP response: status code, body, and the optional `Location`
header.  `url_for("get_accounts", account_id=...)` is the URL of the
read-by-id endpoint for that identity, so the Location header is
modelled as the path of that resource. -/
structure Resp where
  status : Nat
  body : RespBody
  location : Option String
deriving Repr, DecidableEq

/-- The URL produced by `url_for("get_accounts", account_id=id)`:
the path of the read-by-id resource for `id`. -/
def locationUrl (id : Nat) : String :=
  "/accounts/" ++ toString id

/-- The not-found message of `routes.py`:
`f"Account with id [{account_id}] could not be found."`. -/
def notFoundMsg (id : Nat) : String :=
  "Account with id [" ++ toString id ++ "] could not be found."

/-- `check_content_type(media_type)` from `routes.py`: reads the
`Content-Type` header; returns normally when the header is present
(truthy) and equal to `media_type`; otherwise aborts with 415.
`none` models an absent header.  Returns `true` when the check passes. -/
def check_content_type (media_type : String) (contentType : Option String) : Bool :=
  match contentType with
  | some ct => ct ≠ "" ∧ ct = media_type
  | none => false

/-- `create_accounts` from `routes.py` (POST /accounts): checks the
content type, deserializes the JSON body into a fresh `Account`,
persists it, and responds 201 with the serialized account and a
`Location` header; aborts 415 on a bad content type and 400 when
deserialization signals a validation error. -/
def create_accounts (contentType : Option String) (body : Body) (s : Store) :
    Store × Resp :=
  if ¬ check_content_type "application/json" contentType then
    (s, { status := 415, body := .msg "Content-Type must be application/json"
          location := none })
  else
    match deserialize body with
    | none =>
        (s, { status := 400, body := .msg "Bad Request", location := none })
    | some d =>
        let (s', a) := s.create d
        (s', { status := 201, body := .acct a.serialize
               location := some (locationUrl a.id) })

/-- `list_accounts` from `routes.py` (GET /accounts): fetches all
accounts and responds 200 with the list of their serializations. -/
def list_accounts (s : Store) : Store × Resp :=
  (s, { status := 200, body := .accts (s.all.map Account.serialize)
        location := none })

/-- `get_accounts` from `routes.py` (GET /accounts/{id}): looks up by
identity; aborts 404 with a message naming the id when absent; otherwise
responds 200 with the serialized account. -/
def get_accounts (account_id : Nat) (s : Store) : Store × Resp :=
  match s.find account_id with
  | none =>
      (s, { status := 404, body := .msg (notFoundMsg account_id)
            location := none })
  | some a =>
      (s, { status := 200, body := .acct a.serialize, location := none })

/-- `update_accounts` from `routes.py` (PUT /accounts/{id}): looks up by
identity; aborts 404 when absent; otherwise deserializes the body into
the record (400 on a validation error), persists the update, and
responds 200 with the serialized updated account. -/
def update_accounts (account_id : Nat) (body : Body) (s : Store) :
    Store × Resp :=
  match s.find account_id with
  | none =>
      (s, { status := 404, body := .msg (notFoundMsg account_id)
            location := none })
  | some a =>
      match deserialize body with
      | none =>
          (s, { status := 400, body := .msg "Bad Request", location := none })
      | some d =>
          let a' : Account := d.withId a.id
          (s.update a', { status := 200, body := .acct a'.serialize
                          location := none })

/-- `delete_account` from `routes.py` (DELETE /accounts/{id}): looks up
by identity; aborts 404 when absent; otherwise deletes the record and
responds 204 with an empty body. -/
def delete_account (account_id : Nat) (s : Store) : Store × Resp :=
  match s.find account_id with
  | none =>
      (s, { status := 404, body := .msg (notFoundMsg account_id)
            location := none })
  | some _ =>
      (s.delete account_id, { status := 204, body := .empty, location := none })

/-! Concrete demonstration data used by the witness theorems. -/

/-- A well-formed create/update body with both required fields. -/
def demoBody : Body :=
  { name := some "Alice", email := some "alice@example.com"
    address := none, phone_number := none, date_joined := none }

/-- The account obtained by creating `demoBody` into the empty store. -/
def demoAccount : Account :=
  { id := 1, name := "Alice", email := "alice@example.com"
    address := none, phone_number := none, date_joined := none }

/-- A store holding exactly `demoAccount`. -/
def demoStore : Store := { accounts := [demoAccount], nextId := 2 }

/-- The spec's bad-request example: a body containing only a name
(required field email absent). -/
def onlyNameBody : Body :=
  { name := some "x", email := none
    address := none, phone_number := none, date_joined := none }

/-- A second well-formed body, used to exercise updates. -/
def demoBody2 : Body :=
  { name := some "Bob", email := some "bob@example.com"
    address := none, phone_number := none, date_joined := none }

/-- The store after three successful creates into the empty store. -/
def threeStore : Store :=
  (create_accounts (some "application/json") demoBody
    ((create_accounts (some "application/json") demoBody
      ((create_accounts (some "application/json") demoBody Store.empty).1)).1)).1

example : (create_accounts (some "application/json") demoBody Store.empty).2.status = 201 := by decide
example : (create_accounts (some "application/json") demoBody Store.empty).1 = demoStore := by decide
example : (create_accounts (some "text/html") demoBody Store.empty).2.status = 415 := by decide
example : (create_accounts none demoBody Store.empty).2.status = 415 := by decide
example : (create_accounts (some "application/json") onlyNameBody demoStore).2.status = 400 := by decide
example : (get_accounts 1 demoStore).2.status = 200 := by decide
example : (get_accounts 0 demoStore).2.status = 404 := by decide
example : (update_accounts 1 onlyNameBody demoStore).2.status = 400 := by decide
example : (update_accounts 1 demoBody2 demoStore).2.status = 200 := by decide
example : (delete_account 1 demoStore).2.status = 204 := by decide
example : (get_accounts 1 (delete_account 1 demoStore).1).2.status = 404 := by decide
example : threeStore.accounts.length = 3 := by decide
example : (get_accounts 1 demoStore).2.body = .msg (notFoundMsg 1) → False := by decide

/-! Helper lemmas about the store operations. -/

/-- Deleting an identity leaves no record with that identity. -/
theorem Store.find_delete (s : Store) (id : Nat) : (s.delete id).find id = none := by
  simp only [Store.delete, Store.find, List.find?_eq_none, List.mem_filter]
  intro a ha
  simpa using ha.2

/-- Looking up a freshly appended record whose identity is absent from
the rest of the store returns that record. -/
theorem find_append_fresh (s : Store) (a : Account) (h : s.find a.id = none) :
    Store.find { accounts := s.accounts ++ [a], nextId := s.nextId + 1 } a.id =
      some a := by
  simp only [Store.find] at h ⊢
  rw [List.find?_append, h, Option.none_or]
  simp [List.find?]

/-- Updating with a record carrying identity `id` makes the lookup of
`id` return that record, provided `id` was present before. -/
theorem find_update_of_found (l : List Account) (id : Nat) (a a' : Account)
    (ha' : a'.id = id) (h : l.find? (fun b => b.id = id) = some a) :
    (l.map (fun b => if b.id = a'.id then a' else b)).find?
      (fun b => b.id = id) = some a' := by
  induction l with
  | nil => simp [List.find?] at h
  | cons x t ih =>
      by_cases hx : x.id = id
      · simp [List.find?, ha', hx]
      · rw [List.find?_cons_of_neg _ (by simpa using hx)] at h
        simp only [List.map_cons]
        rw [List.find?_cons_of_neg _ (by simp [ha', hx])]
        exact ih h

/-! The claims. -/

/-- C2: a POST /accounts request whose declared Content-Type is present
but not exactly "application/json" fails with 415; the store is
unchanged; and the response does not depend on the body (the handler
aborts before the body is parsed or deserialized). -/
theorem create_accounts_wrong_media_type (ct : String) (b : Body) (s : Store)
    (h : ct ≠ "application/json") :
    (create_accounts (some ct) b s).2.status = 415 ∧
    (create_accounts (some ct) b s).1 = s ∧
    ∀ b' : Body, create_accounts (some ct) b' s = create_accounts (some ct) b s := by
  have hc : check_content_type "application/json" (some ct) = false := by
    simp [check_content_type, h]
  refine ⟨?_, ?_, fun b' => ?_⟩ <;> simp [create_accounts, hc]

/-- C2 witness: Content-Type text/html is rejected with 415. -/
theorem create_accounts_wrong_media_type_witness :
    (create_accounts (some "text/html") demoBody Store.empty).2.status = 415 ∧
    (create_accounts (some "text/html") demoBody Store.empty).1 = Store.empty ∧
    ∀ b' : Body, create_accounts (some "text/html") b' Store.empty =
      create_accounts (some "text/html") demoBody Store.empty :=
  create_accounts_wrong_media_type "text/html" demoBody Store.empty (by decide)

/-- C3: a POST /accounts request with the JSON content type whose body
is missing a required field (name or email) fails with 400 and
persists no account (the store is unchanged). -/
theorem create_accounts_missing_required (b : Body) (s : Store)
    (h : b.name = none ∨ b.email = none) :
    (create_accounts (some "application/json") b s).2.status = 400 ∧
    (create_accounts (some "application/json") b s).1 = s := by
  have hd : deserialize b = none := by
    rcases h with h | h
    · cases he : b.email <;> simp [deserialize, h, he]
    · cases hn : b.name <;> simp [deserialize, h, hn]
  constructor <;> simp [create_accounts, check_content_type, hd]

/-- C3 witness: a body containing only a name is rejected with 400 and
the store keeps its single account. -/
theorem create_accounts_missing_required_witness :
    (create_accounts (some "application/json") onlyNameBody demoStore).2.status = 400 ∧
    (create_accounts (some "application/json") onlyNameBody demoStore).1 = demoStore :=
  create_accounts_missing_required onlyNameBody demoStore (Or.inr rfl)

/-- C4: GET /accounts/{id} returns 200 with the account's serialization
when the identity exists, and 404 with a human-readable message naming
the missing identity when it does not. -/
theorem get_accounts_spec (id : Nat) (s : Store) :
    (∀ a, s.find id = some a →
      (get_accounts id s).2.status = 200 ∧
      (get_accounts id s).2.body = RespBody.acct a.serialize) ∧
    (s.find id = none →
      (get_accounts id s).2.status = 404 ∧
      (get_accounts id s).2.body = RespBody.msg (notFoundMsg id) ∧
      ∃ pre post, notFoundMsg id = pre ++ toString id ++ post) := by
  constructor
  · intro a ha
    constructor <;> simp [get_accounts, ha]
  · intro h
    refine ⟨?_, ?_, "Account with id [", "] could not be found.", rfl⟩ <;>
      simp [get_accounts, h]

/-- C4 witness: GET of the existing identity 1 returns its data and GET
of the absent identity 0 returns 404 naming the id. -/
theorem get_accounts_spec_witness :
    ((get_accounts 1 demoStore).2.status = 200 ∧
      (get_accounts 1 demoStore).2.body = RespBody.acct demoAccount.serialize) ∧
    ((get_accounts 0 demoStore).2.status = 404 ∧
      (get_accounts 0 demoStore).2.body = RespBody.msg (notFoundMsg 0) ∧
      ∃ pre post, notFoundMsg 0 = pre ++ toString 0 ++ post) :=
  ⟨(get_accounts_spec 1 demoStore).1 demoAccount (by decide),
   (get_accounts_spec 0 demoStore).2 (by decide)⟩

/-- C6: DELETE /accounts/{id} on an existing identity responds 204 with
an empty body and removes the record permanently, so a subsequent GET
of that identity returns 404; on an absent identity it responds 404. -/
theorem delete_account_spec (id : Nat) (s : Store) :
    ((s.find id).isSome = true →
      (delete_account id s).2.status = 204 ∧
      (delete_account id s).2.body = RespBody.empty ∧
      ((delete_account id s).1).find id = none ∧
      (get_accounts id (delete_account id s).1).2.status = 404) ∧
    (s.find id = none → (delete_account id s).2.status = 404) := by
  constructor
  · intro h
    obtain ⟨a, ha⟩ := Option.isSome_iff_exists.mp h
    refine ⟨?_, ?_, ?_, ?_⟩ <;>
      simp [delete_account, ha, get_accounts, Store.find_delete]
  · intro h
    simp [delete_account, h]

/-- C6 witness: deleting identity 1 from the demo store gives 204, an
empty body, and a subsequent GET 404; deleting absent identity 0 gives
404. -/
theorem delete_account_spec_witness :
    ((delete_account 1 demoStore).2.status = 204 ∧
      (delete_account 1 demoStore).2.body = RespBody.empty ∧
      ((delete_account 1 demoStore).1).find 1 = none ∧
      (get_accounts 1 (delete_account 1 demoStore).1).2.status = 404) ∧
    (delete_account 0 demoStore).2.status = 404 :=
  ⟨(delete_account_spec 1 demoStore).1 (by decide),
   (delete_account_spec 0 demoStore).2 (by decide)⟩

/-- C7: GET /accounts responds 200 with exactly one serialized entry per
persisted account; in particular the store obtained by three creates
into the empty store lists exactly 3 entries. -/
theorem list_accounts_spec (s : Store) :
    (list_accounts s).2.status = 200 ∧
    (list_accounts s).2.body = RespBody.accts (s.all.map Account.serialize) ∧
    (s.all.map Account.serialize).length = s.all.length ∧
    (list_accounts threeStore).2.body =
      RespBody.accts (threeStore.all.map Account.serialize) ∧
    (threeStore.all.map Account.serialize).length = 3 := by
  refine ⟨rfl, rfl, by simp, rfl, by decide⟩

/-- C8: a request that fails 404 on the read, update, or delete by-id
endpoint (identity absent) leaves the store unchanged. -/
theorem notfound_preserves_store (id : Nat) (b : Body) (s : Store)
    (h : s.find id = none) :
    (get_accounts id s).2.status = 404 ∧ (get_accounts id s).1 = s ∧
    (update_accounts id b s).2.status = 404 ∧ (update_accounts id b s).1 = s ∧
    (delete_account id s).2.status = 404 ∧ (delete_account id s).1 = s := by
  refine ⟨?_, ?_, ?_, ?_, ?_, ?_⟩ <;>
    simp [get_accounts, update_accounts, delete_account, h]

/-- C8 witness: identity 0 is absent from the demo store, and all three
by-id endpoints respond 404 there leaving the store unchanged. -/
theorem notfound_preserves_store_witness :
    (get_accounts 0 demoStore).2.status = 404 ∧ (get_accounts 0 demoStore).1 = demoStore ∧
    (update_accounts 0 demoBody2 demoStore).2.status = 404 ∧
    (update_accounts 0 demoBody2 demoStore).1 = demoStore ∧
    (delete_account 0 demoStore).2.status = 404 ∧ (delete_account 0 demoStore).1 = demoStore :=
  notfound_preserves_store 0 demoBody2 demoStore (by decide)

/-- C9: a POST /accounts request with no Content-Type header at all
fails with 415; the store is unchanged; and the response does not depend
on the body (the check treats a missing header like a mismatch). -/
theorem create_accounts_no_content_type (b : Body) (s : Store) :
    check_content_type "application/json" none = false ∧
    (create_accounts none b s).2.status = 415 ∧
    (create_accounts none b s).1 = s ∧
    ∀ b' : Body, create_accounts none b' s = create_accounts none b s :=
  ⟨rfl, rfl, rfl, fun _ => rfl⟩

/-- C10: PUT /accounts/{id} performs no media-type enforcement: its
response status is always 404, 400 or 200, never 415, whatever the
request's Content-Type was. -/
theorem update_accounts_never_415 (id : Nat) (b : Body) (s : Store) :
    (update_accounts id b s).2.status = 404 ∨
    (update_accounts id b s).2.status = 400 ∨
    (update_accounts id b s).2.status = 200 := by
  unfold update_accounts
  cases h : s.find id with
  | none => simp
  | some a => cases hd : deserialize b <;> simp

/-- C1: a POST /accounts request with Content-Type application/json
whose body carries both required fields responds 201 with the serialized
new account carrying the store-assigned identity, a Location header that
is the URL of the new resource, and a GET at that identity in the
resulting store returns the same serialized data.  The store-invariant
hypothesis says the identity about to be assigned is not already taken. -/
theorem create_accounts_valid (b : Body) (s : Store)
    (hn : b.name.isSome = true) (he : b.email.isSome = true)
    (hfresh : s.find s.nextId = none) :
    ∃ a : Account,
      a.id = s.nextId ∧
      (create_accounts (some "application/json") b s).2.status = 201 ∧
      (create_accounts (some "application/json") b s).2.body =
        RespBody.acct a.serialize ∧
      (create_accounts (some "application/json") b s).2.location =
        some (locationUrl a.id) ∧
      (get_accounts a.id (create_accounts (some "application/json") b s).1).2.status = 200 ∧
      (get_accounts a.id (create_accounts (some "application/json") b s).1).2.body =
        RespBody.acct a.serialize := by
  obtain ⟨n, hn'⟩ := Option.isSome_iff_exists.mp hn
  obtain ⟨e, he'⟩ := Option.isSome_iff_exists.mp he
  have hd : deserialize b =
      some { name := n, email := e, address := b.address
             phone_number := b.phone_number, date_joined := b.date_joined } := by
    simp [deserialize, hn', he']
  have hres : create_accounts (some "application/json") b s =
      ({ accounts := s.accounts ++
           [{ id := s.nextId, name := n, email := e, address := b.address
              phone_number := b.phone_number, date_joined := b.date_joined }]
         nextId := s.nextId + 1 },
       { status := 201
         body := RespBody.acct
           (Account.serialize
             { id := s.nextId, name := n, email := e, address := b.address
               phone_number := b.phone_number, date_joined := b.date_joined })
         location := some (locationUrl s.nextId) }) := by
    simp [create_accounts, check_content_type, hd, Store.create,
          AccountData.withId, Account.serialize]
  have hfind : Store.find
      { accounts := s.accounts ++
          [{ id := s.nextId, name := n, email := e, address := b.address
             phone_number := b.phone_number, date_joined := b.date_joined }]
        nextId := s.nextId + 1 } s.nextId =
      some { id := s.nextId, name := n, email := e, address := b.address
             phone_number := b.phone_number, date_joined := b.date_joined } :=
    find_append_fresh s _ hfresh
  use { id := s.nextId, name := n, email := e, address := b.address
        phone_number := b.phone_number, date_joined := b.date_joined }
  refine ⟨rfl, ?_, ?_, ?_, ?_, ?_⟩
  · rw [hres]
  · rw [hres]
  · rw [hres]
  · simp [hres, get_accounts, hfind]
  · simp [hres, get_accounts, hfind, Account.serialize]

/-- C1 witness: creating `demoBody` into the empty store yields 201 with
identity 1, the Location of /accounts/1, and a matching subsequent GET. -/
theorem create_accounts_valid_witness :
    ∃ a : Account,
      a.id = Store.empty.nextId ∧
      (create_accounts (some "application/json") demoBody Store.empty).2.status = 201 ∧
      (create_accounts (some "application/json") demoBody Store.empty).2.body =
        RespBody.acct a.serialize ∧
      (create_accounts (some "application/json") demoBody Store.empty).2.location =
        some (locationUrl a.id) ∧
      (get_accounts a.id (create_accounts (some "application/json") demoBody Store.empty).1).2.status = 200 ∧
      (get_accounts a.id (create_accounts (some "application/json") demoBody Store.empty).1).2.body =
        RespBody.acct a.serialize :=
  create_accounts_valid demoBody Store.empty rfl rfl rfl

/-- C5 counterexample: identity 1 exists in the demo store, yet the PUT
whose body lacks the required email field responds 400, not 200, and the
stored account keeps its old attributes — the claim as stated fails for
such a request. -/
theorem update_accounts_claim_counterexample :
    (demoStore.find 1).isSome = true ∧
    (update_accounts 1 onlyNameBody demoStore).2.status = 400 ∧
    ¬ (update_accounts 1 onlyNameBody demoStore).2.status = 200 ∧
    (update_accounts 1 onlyNameBody demoStore).1 = demoStore := by
  refine ⟨rfl, rfl, by decide, rfl⟩

/-- C5 (amended): for every PUT /accounts/{id} request: if no account
with that identity exists, the response is 404 and the store unchanged;
if the account exists and the body carries both required fields, the
account's attributes are overwritten with the body's values, the
response is 200 with the updated serialized account, and a subsequent
GET of that identity returns the new values. -/
theorem update_accounts_spec (id : Nat) (b : Body) (s : Store) :
    (s.find id = none →
      (update_accounts id b s).2.status = 404 ∧
      (update_accounts id b s).1 = s) ∧
    (∀ a n e, s.find id = some a → b.name = some n → b.email = some e →
      ∃ a' : Account, a'.id = id ∧ a'.name = n ∧ a'.email = e ∧
        a'.address = b.address ∧ a'.phone_number = b.phone_number ∧
        a'.date_joined = b.date_joined ∧
        (update_accounts id b s).2.status = 200 ∧
        (update_accounts id b s).2.body = RespBody.acct a'.serialize ∧
        (get_accounts id (update_accounts id b s).1).2.status = 200 ∧
        (get_accounts id (update_accounts id b s).1).2.body =
          RespBody.acct a'.serialize) := by
  constructor
  · intro h
    constructor <;> simp [update_accounts, h]
  · intro a n e ha hn he
    have haid : a.id = id := by
      have := List.find?_some ha
      simpa using this
    have hd : deserialize b =
        some { name := n, email := e, address := b.address
               phone_number := b.phone_number, date_joined := b.date_joined } := by
      simp [deserialize, hn, he]
    have hres : update_accounts id b s =
        (s.update { id := a.id, name := n, email := e, address := b.address
                    phone_number := b.phone_number, date_joined := b.date_joined },
         { status := 200
           body := RespBody.acct
             (Account.serialize
               { id := a.id, name := n, email := e, address := b.address
                 phone_number := b.phone_number, date_joined := b.date_joined })
           location := none }) := by
      simp [update_accounts, ha, hd, AccountData.withId, Account.serialize]
    have h2 : s.accounts.find? (fun x => x.id = id) = some a := ha
    have hfind : Store.find
        (s.update { id := a.id, name := n, email := e, address := b.address
                    phone_number := b.phone_number, date_joined := b.date_joined })
        id =
        some { id := a.id, name := n, email := e, address := b.address
               phone_number := b.phone_number, date_joined := b.date_joined } := by
      simpa [Store.update, Store.find] using
        find_update_of_found s.accounts id a
          { id := a.id, name := n, email := e, address := b.address
            phone_number := b.phone_number, date_joined := b.date_joined }
          haid h2
    use { id := a.id, name := n, email := e, address := b.address
          phone_number := b.phone_number, date_joined := b.date_joined }
    refine ⟨haid, rfl, rfl, rfl, rfl, rfl, ?_, ?_, ?_, ?_⟩
    · rw [hres]
    · rw [hres]
    · simp [hres, get_accounts, hfind]
    · simp [hres, get_accounts, hfind, Account.serialize]

/-- C5 witness: updating existing identity 1 with a body carrying new
name and email yields 200 and a GET that returns the new values. -/
theorem update_accounts_spec_witness :
    ∃ a' : Account, a'.id = 1 ∧ a'.name = "Bob" ∧ a'.email = "bob@example.com" ∧
      a'.address = demoBody2.address ∧ a'.phone_number = demoBody2.phone_number ∧
      a'.date_joined = demoBody2.date_joined ∧
      (update_accounts 1 demoBody2 demoStore).2.status = 200 ∧
      (update_accounts 1 demoBody2 demoStore).2.body = RespBody.acct a'.serialize ∧
      (get_accounts 1 (update_accounts 1 demoBody2 demoStore).1).2.status = 200 ∧
      (get_accounts 1 (update_accounts 1 demoBody2 demoStore).1).2.body =
        RespBody.acct a'.serialize :=
  (update_accounts_spec 1 demoBody2 demoStore).2 demoAccount "Bob" "bob@example.com"
    (by decide) rfl rfl

end AccountService
